import Mathlib

set_option autoImplicit false

/-!
Shallow embedding of the alignment-plotting utilities
(`utilities/parse_paf.py`, `utilities/asm_plot.py`).

Python strings are modelled as Lean `String`s manipulated through explicit
char-list functions; Python `int`s as `Int`; the matplotlib float constants
as exact rationals (`ℚ`).  A Python function that can raise an exception is
modelled with `Option` (or a dedicated result type distinguishing a fatal
error from a deliberate `return None`): `none` / `.err` means the exception
propagates and aborts the run.
-/

/-! ### Python string primitives -/

/-- The whitespace characters stripped by Python `str.strip()`
(restricted to the ASCII ones, which are the only ones exercised here). -/
def isPySpace (c : Char) : Bool :=
  c == ' ' || c == '\t' || c == '\n' || c == '\r' || c == '\x0b' || c == '\x0c'

/-- Python `s.strip()`. -/
def pyStrip (cs : List Char) : List Char :=
  ((cs.dropWhile isPySpace).reverse.dropWhile isPySpace).reverse

/-- Helper for `pySplit`: accumulates the current (reversed) chunk. -/
def pySplitAux (sep : Char) : List Char → List Char → List (List Char)
  | acc, [] => [acc.reverse]
  | acc, c :: cs =>
    if c == sep then acc.reverse :: pySplitAux sep [] cs
    else pySplitAux sep (c :: acc) cs

/-- Python `s.split(sep)` for a one-character separator:
every occurrence separates, empty chunks are kept. -/
def pySplit (sep : Char) (cs : List Char) : List (List Char) :=
  pySplitAux sep [] cs

/-- Python `s.split(sep)` on `String`s. -/
def pySplitOn (sep : Char) (s : String) : List String :=
  (pySplit sep s.toList).map List.asString

/-- `line.strip().split("\t")`, the first step of every line parser here. -/
def pySplitTab (line : String) : List String :=
  (pySplit '\t' (pyStrip line.toList)).map List.asString

/-- Value of a run of decimal digits. -/
def digitsVal (cs : List Char) : Nat :=
  cs.foldl (fun n c => n * 10 + (c.toNat - 48)) 0

/-- A nonempty all-digit run, else `none`. -/
def digitsToNat? (cs : List Char) : Option Nat :=
  if !cs.isEmpty && cs.all Char.isDigit then some (digitsVal cs) else none

/-- Character-list core of `pyInt`. -/
def pyIntOfChars : List Char → Option Int
  | '-' :: rest => (digitsToNat? rest).map (fun n => -(n : Int))
  | '+' :: rest => (digitsToNat? rest).map (fun n => (n : Int))
  | cs => (digitsToNat? cs).map (fun n => (n : Int))

/-- Model of Python `int(s)`: optional surrounding whitespace, optional
sign, then a nonempty run of ASCII decimal digits; `none` models the
`ValueError` raised otherwise.  (Python also accepts underscore digit
grouping and non-ASCII digits; no input modelled here uses them.) -/
def pyInt (s : String) : Option Int :=
  pyIntOfChars (pyStrip s.toList)

/-! ### PAF parser (`utilities/parse_paf.py`) -/

/-- The dictionary built by `parse_paf_line`; positional fields are carried
as the raw strings, exactly as in the source. -/
structure PafRecord where
  query_name : String
  query_start : String
  query_end : String
  target_name : String
  ref_pos_start : String
  ref_pos_end : String
  ref_seq_len : String
  tp : Option String
  de : Option String
  deriving DecidableEq, Repr

/-- Outcome of `parse_paf_line`: `err` models an uncaught exception
(`ValueError` from `int(...)` or from unpacking a tag field), `skip`
models `return None`, `ok` a returned record. -/
inductive PafResult where
  | err
  | skip
  | ok (r : PafRecord)
  deriving DecidableEq, Repr

/-- The tag-scanning loop of `parse_paf_line`
(`for field in fields[12:]: tag, _, value = field.split(':') ...`),
threading the current `(tp, de)` state; `none` models the `ValueError`
raised when a field does not split into exactly three parts. -/
def scanTags : Option String × Option String → List String →
    Option (Option String × Option String)
  | st, [] => some st
  | st, f :: fs =>
    match pySplitOn ':' f with
    | [tag, _, value] =>
      if tag = "tp" then scanTags (some value, st.2) fs
      else if tag = "de" then scanTags (st.1, some value) fs
      else scanTags st fs
    | _ => none

/-- `parse_paf_line(line, min_length)`. -/
def parse_paf_line (line : String) (min_length : Int) : PafResult :=
  let fields := pySplitTab line
  if fields.length < 12 then .skip
  else
    match pyInt (fields.getD 9 "") with
    | none => .err
    | some blockLen =>
      if blockLen < min_length then .skip
      else
        match scanTags (none, none) (fields.drop 12) with
        | none => .err
        | some (tp, de) =>
          if (tp = some "P" ∨ tp = some "I") ∧ de ≠ none then
            .ok { query_name := fields.getD 0 "", query_start := fields.getD 2 "",
                  query_end := fields.getD 3 "", target_name := fields.getD 5 "",
                  ref_pos_start := fields.getD 7 "", ref_pos_end := fields.getD 8 "",
                  ref_seq_len := fields.getD 6 "", tp := tp, de := de }
          else .skip

/-- `read_paf`: the per-line loop over the file's lines; an exception on any
line aborts the whole read (`none`), a `skip` drops only that line. -/
def read_paf (lines : List String) (min_length : Int) : Option (List PafRecord) :=
  match lines with
  | [] => some []
  | l :: ls =>
    match parse_paf_line l min_length with
    | .err => none
    | .skip => read_paf ls min_length
    | .ok r => (read_paf ls min_length).map (r :: ·)

/-- The value of the last occurrence of tag `t` among well-formed tag
fields, folded left to right as the source loop does (phrased directly
from the spec's "last tp/de tag among fields 12 and onward"). -/
def tagFoldFrom (t : String) : Option String → List String → Option String
  | acc, [] => acc
  | acc, f :: fs =>
    match pySplitOn ':' f with
    | [tag, _, value] => tagFoldFrom t (if tag = t then some value else acc) fs
    | _ => tagFoldFrom t acc fs

/-- Last value of tag `t` among the optional fields of a split PAF line. -/
def lastTag (fields : List String) (t : String) : Option String :=
  tagFoldFrom t none (fields.drop 12)

/-! ### Tab-alignment parser (`utilities/asm_plot.py`, `parse_tab_line` / `read_tab_file`) -/

/-- The dictionary built by `parse_tab_line`. -/
structure TabRecord where
  chrom : String
  start : Int
  «end» : Int
  query : String
  deriving DecidableEq, Repr

/-- `parse_tab_line(line)`: positional extraction with no filtering; `none`
models the uncaught `IndexError`/`ValueError` on a line with fewer than six
fields or non-numeric fields 4/5. -/
def parse_tab_line (line : String) : Option TabRecord :=
  let fields := pySplitTab line
  if fields.length < 6 then none
  else
    match pyInt (fields.getD 4 ""), pyInt (fields.getD 5 "") with
    | some s, some e =>
      some { chrom := fields.getD 3 "", start := s, «end» := e, query := fields.getD 0 "" }
    | _, _ => none

/-- Loop body of `read_tab_file` over the lines after the header:
blank lines and lines starting with `#` are skipped, any parse failure is
fatal to the whole read. -/
def readTabLines : List String → Option (List TabRecord)
  | [] => some []
  | l :: ls =>
    if (pyStrip l.toList).isEmpty || l.toList.headD ' ' == '#' then readTabLines ls
    else
      match parse_tab_line l with
      | none => none
      | some r => (readTabLines ls).map (r :: ·)

/-- `read_tab_file`: `next(f)` unconditionally consumes the header line
(raising `StopIteration` on an empty file, modelled as `none`). -/
def read_tab_file : List String → Option (List TabRecord)
  | [] => none
  | _ :: rest => readTabLines rest

/-! ### Color lookup loader (`read_tsv_to_dict`) -/

/-- Python `dict` insertion: an existing key keeps its position and takes
the new value, a new key is appended. -/
def pyDictInsert (d : List (String × String)) (k v : String) : List (String × String) :=
  if d.any (fun p => p.1 == k) then d.map (fun p => if p.1 == k then (k, v) else p)
  else d ++ [(k, v)]

/-- Python `dict` lookup (`d[k]`): `none` models the `KeyError`. -/
def pyDictGet (d : List (String × String)) (k : String) : Option String :=
  (d.find? (fun p => p.1 == k)).map Prod.snd

/-- The dict comprehension of `read_tsv_to_dict` with the default columns:
`{rows[0]: rows[1] for rows in reader if len(rows) >= value_column}`, where
`value_column = 1`.  A row of length 1 passes the guard and then `rows[1]`
raises `IndexError`, modelled as `none`. -/
def readTsvAux : List (String × String) → List (List String) → Option (List (String × String))
  | d, [] => some d
  | d, row :: rest =>
    if row.length < 1 then readTsvAux d rest
    else if row.length < 2 then none
    else readTsvAux (pyDictInsert d (row.getD 0 "") (row.getD 1 "")) rest

/-- `read_tsv_to_dict(filename)` over the already-decoded csv rows
(csv decoding itself is file-I/O mechanics, out of scope). -/
def read_tsv_to_dict (rows : List (List String)) : Option (List (String × String)) :=
  readTsvAux [] rows

/-! ### BED region parser (`parse_bed_line`) -/

/-- A matplotlib color argument: a named color string or an RGB triple. -/
inductive PyColor where
  | named (s : String)
  | rgb (r g b : ℚ)
  deriving DecidableEq, Repr

/-- The dictionary built by `parse_bed_line`. -/
structure RegionRecord where
  chrom : String
  start : Int
  «end» : Int
  type : String
  color : PyColor
  deriving DecidableEq, Repr

/-- Outcome of `parse_bed_line`: `err` models an uncaught exception,
`skip` models `return None` for a region below 100,000 bp. -/
inductive BedResult where
  | err
  | skip
  | ok (r : RegionRecord)
  deriving DecidableEq, Repr

/-- `re.split('_|\(', name)[0]`: the prefix of `name` before the first
underscore or opening parenthesis. -/
def bed_type (name : String) : String :=
  (name.toList.takeWhile (fun c => !(c == '_' || c == '('))).asString

/-- `int(c)` applied to each color component, left to right, as the
generator inside `tuple(int(c) / 255.0 for c in color_values)` does;
`none` models the `ValueError` on the first non-numeric component. -/
def pyIntList : List String → Option (List Int)
  | [] => some []
  | c :: cs =>
    match pyInt c with
    | none => none
    | some n => (pyIntList cs).map (n :: ·)

/-- The tail of `parse_bed_line` after the size filter and the field-count
checks: color parsing and record construction. -/
def bedOkOrErr (fields : List String) (start stop : Int) : BedResult :=
  let colorValues := pySplitOn ',' (fields.getD 8 "")
  if colorValues.length = 3 then
    match pyIntList colorValues with
    | some ns =>
      .ok { chrom := fields.getD 0 "", start := start, «end» := stop,
            type := bed_type (fields.getD 3 ""),
            color := .rgb ((ns.getD 0 0 : ℚ) / 255) ((ns.getD 1 0 : ℚ) / 255)
                          ((ns.getD 2 0 : ℚ) / 255) }
    | none => .err
  else
    .ok { chrom := fields.getD 0 "", start := start, «end» := stop,
          type := bed_type (fields.getD 3 ""), color := .named "grey" }

/-- `parse_bed_line(line)`. -/
def parse_bed_line (line : String) : BedResult :=
  let fields := pySplitTab line
  if fields.length < 4 then .err
  else
    match pyInt (fields.getD 1 ""), pyInt (fields.getD 2 "") with
    | some start, some stop =>
      if stop - start < 100000 then .skip
      else if fields.length < 9 then .err
      else bedOkOrErr fields start stop
    | _, _ => .err

/-! ### Natural sort (`natural_sort_key`) and the chromosome catalog -/

/-- One element of the sort key produced by `natural_sort_key`:
`int(text)` for a digit run, `text.lower()` for the rest. -/
inductive KeyElem where
  | str (cs : List Char)
  | num (n : Nat)
  deriving DecidableEq, Repr

/-- Maximal runs of digits / non-digits, tagged with `true` for a digit
run; the scan starts in a (possibly empty) non-digit run, matching the
leading empty string `re.split('([0-9]+)', s)` produces before a digit. -/
def charRuns : Bool → List Char → List Char → List (Bool × List Char)
  | isDig, acc, [] => [(isDig, acc.reverse)]
  | isDig, acc, c :: cs =>
    if c.isDigit == isDig then charRuns isDig (c :: acc) cs
    else (isDig, acc.reverse) :: charRuns c.isDigit [c] cs

/-- `natural_sort_key(s)`: alternating runs, digit runs as integers,
non-digit runs lower-cased; a trailing digit run is followed by the empty
string, as in the regex split. -/
def natural_sort_key (s : String) : List KeyElem :=
  let runs := charRuns false [] s.toList
  let elems := runs.map (fun r => if r.1 then KeyElem.num (digitsVal r.2)
                                  else KeyElem.str (r.2.map Char.toLower))
  match runs.getLast? with
  | some (true, _) => elems ++ [.str []]
  | _ => elems

/-- Python string comparison: lexicographic on code points. -/
def charsCmp : List Char → List Char → Ordering
  | [], [] => .eq
  | [], _ :: _ => .lt
  | _ :: _, [] => .gt
  | a :: as, b :: bs =>
    match compare a.toNat b.toNat with
    | .eq => charsCmp as bs
    | o => o

/-- Comparison of key elements; `none` models the `TypeError` Python
raises when ordering an `int` against a `str`. -/
def keElemCmp : KeyElem → KeyElem → Option Ordering
  | .str a, .str b => some (charsCmp a b)
  | .num a, .num b => some (compare a b)
  | _, _ => none

/-- Python list comparison of two sort keys: first differing element
decides, a strict prefix is smaller. -/
def keyCmp : List KeyElem → List KeyElem → Option Ordering
  | [], [] => some .eq
  | [], _ :: _ => some .lt
  | _ :: _, [] => some .gt
  | a :: as, b :: bs =>
    match keElemCmp a b with
    | none => none
    | some .eq => keyCmp as bs
    | some o => some o

/-- Comparison of two names under `natural_sort_key`. -/
def natCmp (a b : String) : Option Ordering :=
  keyCmp (natural_sort_key a) (natural_sort_key b)

/-- Strict natural order. -/
def natLt (a b : String) : Bool :=
  natCmp a b == some .lt

/-- Non-strict natural order, used by the sort.  On the catalog every
comparison is defined (proved below), so the `none` fallback is never
taken there. -/
def natLe (a b : String) : Bool :=
  !(natCmp a b == some .gt)

/-- `REFERENCE_CHROMOSOMES`, in source order. -/
def REFERENCE_CHROMOSOMES : List (String × Nat) :=
  [("chr1", 248387328), ("chr2", 242696752), ("chr3", 201105948), ("chr4", 193574945),
   ("chr5", 182045439), ("chr6", 172126628), ("chr7", 160567428), ("chr8", 146259331),
   ("chr9", 150617247), ("chr10", 134758134), ("chr11", 135127769), ("chr12", 133324548),
   ("chr13", 113566686), ("chr14", 101161492), ("chr15", 99753195), ("chr16", 96330374),
   ("chr17", 84276897), ("chr18", 80542538), ("chr19", 61707364), ("chr20", 66210255),
   ("chr21", 45090682), ("chr22", 51324926), ("chrX", 154259566), ("chrY", 62460029),
   ("chrM", 16569)]

/-- The catalog's key list. -/
def refNames : List String :=
  REFERENCE_CHROMOSOMES.map Prod.fst

/-- `chrom in REFERENCE_CHROMOSOMES`. -/
def refContains (c : String) : Bool :=
  REFERENCE_CHROMOSOMES.any (fun p => p.1 == c)

/-- `REFERENCE_CHROMOSOMES[chrom]`. -/
def refLenOf (c : String) : Option Nat :=
  (REFERENCE_CHROMOSOMES.find? (fun p => p.1 == c)).map Prod.snd

/-- Stable insertion for an ascending sort by the natural order. -/
def insertAsc (x : String) : List String → List String
  | [] => [x]
  | y :: ys => if natLe x y then x :: y :: ys else y :: insertAsc x ys

/-- `sorted(REFERENCE_CHROMOSOMES.keys(), key=natural_sort_key, reverse=True)`.
The catalog's keys are pairwise distinct under the key (proved below), so
any correct sort yields this list; it is modelled as a stable ascending
insertion sort followed by a reversal. -/
def chroms : List String :=
  (refNames.foldr insertAsc []).reverse

/-- `chrom_y_positions = {chrom: i for i, chrom in enumerate(chroms, start=1)}`. -/
def chrom_y_positions : List (String × Nat) :=
  (chroms.enumFrom 1).map (fun p => (p.2, p.1))

/-- Slot lookup `chrom_y_positions[c]`. -/
def slotOf (c : String) : Option Nat :=
  (chrom_y_positions.find? (fun p => p.1 == c)).map Prod.snd

/-! ### Layout engine (`plot_data`) -/

/-- The float constants of the source, as exact rationals:
`ref_height = 0.10`, `asm_height = 0.05`, `asm_spacing = 0.15`. -/
def ref_height : ℚ := 1 / 10

/-- Alignment rectangle height. -/
def asm_height : ℚ := 1 / 20

/-- Per-source vertical spacing. -/
def asm_spacing : ℚ := 3 / 20

/-- One rectangle handed to the renderer
(`patches.Rectangle((x, y), width, height, color=...)`). -/
structure PlacedRectangle where
  x : Int
  width : Int
  y : ℚ
  height : ℚ
  color : PyColor
  deriving DecidableEq, Repr

/-- The reference track: one black rectangle per catalog chromosome at its
slot (the `chrom in REFERENCE_CHROMOSOMES` guard always holds, since
`chrom_y_positions` was built from the catalog's keys). -/
def refRects : List PlacedRectangle :=
  chrom_y_positions.filterMap (fun p =>
    (refLenOf p.1).map (fun len =>
      { x := 0, width := (len : Int), y := (p.2 : ℚ) - ref_height / 2,
        height := ref_height, color := .named "black" }))

/-- The rectangle for one BED region, `none` when its chromosome is not in
the catalog (the region is then silently dropped).  The inner slot lookup
cannot fail for a catalog chromosome. -/
def regionRect (r : RegionRecord) : Option PlacedRectangle :=
  if refContains r.chrom then
    (slotOf r.chrom).map (fun y =>
      { x := r.start, width := r.«end» - r.start, y := (y : ℚ) - ref_height / 2,
        height := ref_height, color := r.color })
  else none

/-- The region overlay, in input order. -/
def regionRects (regions : List RegionRecord) : List PlacedRectangle :=
  regions.filterMap regionRect

/-- The rectangles of one alignment source file at vertical offset `off`:
records on unknown chromosomes are skipped, a query name missing from the
color lookup is a fatal `KeyError` (`none`). -/
def sourceRects (off : ℚ) (lk : List (String × String)) :
    List TabRecord → Option (List PlacedRectangle)
  | [] => some []
  | d :: ds =>
    if refContains d.chrom then
      match pyDictGet lk d.query with
      | none => none
      | some colorVal =>
        match slotOf d.chrom with
        | none => none
        | some y =>
          (sourceRects off lk ds).map
            (fun rs => { x := d.start, width := d.«end» - d.start, y := (y : ℚ) + off,
                         height := asm_height, color := PyColor.named colorVal } :: rs)
    else sourceRects off lk ds

/-- The alignment sub-tracks: the first source at offset `off`, each later
source one `asm_spacing` higher (`vertical_offset += asm_spacing`). -/
def alignRectsFrom (off : ℚ) :
    List (List TabRecord × List (String × String)) → Option (List PlacedRectangle)
  | [] => some []
  | src :: rest =>
    match sourceRects off src.2 src.1 with
    | none => none
    | some rs => (alignRectsFrom (off + asm_spacing) rest).map (rs ++ ·)

/-- `plot_data` downstream of file reading: reference track, then region
overlay, then one sub-track per alignment source, in that order. -/
def plot_core (sources : List (List TabRecord × List (String × String)))
    (regions : List RegionRecord) : Option (List PlacedRectangle) :=
  (alignRectsFrom asm_spacing sources).map
    (fun ar => refRects ++ regionRects regions ++ ar)

/-- Reading and parsing of the per-source input files inside the
`plot_data` loop. -/
def loadSources : List (List String × List (List String)) →
    Option (List (List TabRecord × List (String × String)))
  | [] => some []
  | fp :: rest =>
    match read_tab_file fp.1, read_tsv_to_dict fp.2 with
    | some d, some lk => (loadSources rest).map ((d, lk) :: ·)
    | _, _ => none

/-- `plot_data(alignment_files, color_files, regions, ...)`, with each tab
file given as its lines and each color file as its csv rows.  Fewer color
files than alignment files is the fatal `color_files[i]` `IndexError`. -/
def plot_data (alignment_files : List (List String))
    (color_files : List (List (List String)))
    (regions : List RegionRecord) : Option (List PlacedRectangle) :=
  if alignment_files.length ≤ color_files.length then
    match loadSources (alignment_files.zip color_files) with
    | none => none
    | some sources => plot_core sources regions
  else none

/-! ### Helper lemmas: PAF tag scan and per-line reading -/

/-- When every optional field splits into exactly three parts, the tag scan
never fails and returns, for each tag, the value of its last occurrence. -/
theorem scanTags_wf (fs : List String) :
    ∀ st : Option String × Option String,
    (∀ f ∈ fs, (pySplitOn ':' f).length = 3) →
    scanTags st fs = some (tagFoldFrom "tp" st.1 fs, tagFoldFrom "de" st.2 fs) := by
  induction fs with
  | nil => intro st _; rfl
  | cons f fs ih =>
    intro st h
    obtain ⟨a, b, c, habc⟩ := List.length_eq_three.mp (h f (List.mem_cons_self f fs))
    have hrest : ∀ g ∈ fs, (pySplitOn ':' g).length = 3 :=
      fun g hg => h g (List.mem_cons_of_mem f hg)
    simp only [scanTags, tagFoldFrom, habc]
    by_cases hta : a = "tp"
    · subst hta
      simp [ih _ hrest]
    · by_cases hda : a = "de"
      · subst hda
        simp [ih _ hrest]
      · simp [hta, hda, ih _ hrest]

/-- A normal form for `parse_paf_line` on a line with at least 12 fields,
a numeric ninth field and well-formed optional fields. -/
theorem parse_paf_line_eq (line : String) (mn n : Int)
    (h12 : ¬ (pySplitTab line).length < 12)
    (hn : pyInt ((pySplitTab line).getD 9 "") = some n)
    (hwf : ∀ f ∈ (pySplitTab line).drop 12, (pySplitOn ':' f).length = 3) :
    parse_paf_line line mn =
      if n < mn then .skip
      else if (lastTag (pySplitTab line) "tp" = some "P" ∨
               lastTag (pySplitTab line) "tp" = some "I") ∧
              lastTag (pySplitTab line) "de" ≠ none then
        .ok { query_name := (pySplitTab line).getD 0 "",
              query_start := (pySplitTab line).getD 2 "",
              query_end := (pySplitTab line).getD 3 "",
              target_name := (pySplitTab line).getD 5 "",
              ref_pos_start := (pySplitTab line).getD 7 "",
              ref_pos_end := (pySplitTab line).getD 8 "",
              ref_seq_len := (pySplitTab line).getD 6 "",
              tp := lastTag (pySplitTab line) "tp",
              de := lastTag (pySplitTab line) "de" }
      else .skip := by
  simp only [parse_paf_line, if_neg h12, hn, scanTags_wf _ _ hwf]
  rfl

/-- Dropping a line the parser skips does not change the result of
reading the file. -/
theorem read_paf_skip_middle (line : String) (mn : Int)
    (h : parse_paf_line line mn = .skip) (pre post : List String) :
    read_paf (pre ++ line :: post) mn = read_paf (pre ++ post) mn := by
  induction pre with
  | nil => simp [read_paf, h]
  | cons p ps ih =>
    simp only [List.cons_append, read_paf]
    cases parse_paf_line p mn <;> simp [ih]

/-- A line the parser retains contributes its record at its position in
the file, independently of the surrounding lines. -/
theorem read_paf_ok_middle (line : String) (mn : Int) (r : PafRecord)
    (h : parse_paf_line line mn = .ok r) (pre post : List String) :
    read_paf (pre ++ line :: post) mn =
      (read_paf pre mn).bind (fun as => (read_paf post mn).map (fun bs => as ++ r :: bs)) := by
  induction pre with
  | nil =>
    simp only [List.nil_append, read_paf, h]
    cases read_paf post mn <;> simp
  | cons p ps ih =>
    simp only [List.cons_append, read_paf]
    cases parse_paf_line p mn with
    | err => simp
    | skip => simpa using ih
    | ok r' =>
      simp only [List.append_eq, ih]
      cases read_paf ps mn <;> cases read_paf post mn <;> simp

/-! ### Claims C1 and C2: the PAF parser -/

/-- C1: for a PAF line with at least 12 tab-separated fields, a numeric
ninth field and well-formed tag fields, `parse_paf_line` returns absent
(`None`) exactly when the block length is below `min_length`, or the last
`tp` tag is absent or not `'P'`/`'I'`, or the `de` tag is absent; it never
raises; and rejection is per-line: a skipped line leaves the rest of the
file's result unchanged, while a retained line contributes its record in
place. -/
theorem paf_reject_iff_filters_and_per_line (line : String) (mn : Int)
    (pre post : List String) (r : PafRecord)
    (h12 : 12 ≤ (pySplitTab line).length)
    (hnum : (pyInt ((pySplitTab line).getD 9 "")).isSome = true)
    (hwf : ∀ f ∈ (pySplitTab line).drop 12, (pySplitOn ':' f).length = 3) :
    (parse_paf_line line mn = .skip ↔
      ((pyInt ((pySplitTab line).getD 9 "")).getD 0 < mn ∨
       ¬ (lastTag (pySplitTab line) "tp" = some "P" ∨
          lastTag (pySplitTab line) "tp" = some "I") ∨
       lastTag (pySplitTab line) "de" = none)) ∧
    parse_paf_line line mn ≠ .err ∧
    (parse_paf_line line mn = .skip →
      read_paf (pre ++ line :: post) mn = read_paf (pre ++ post) mn) ∧
    (parse_paf_line line mn = .ok r →
      read_paf (pre ++ line :: post) mn =
        (read_paf pre mn).bind (fun as => (read_paf post mn).map (fun bs => as ++ r :: bs))) := by
  obtain ⟨n, hn⟩ := Option.isSome_iff_exists.mp hnum
  have hlt : ¬ (pySplitTab line).length < 12 := by omega
  have heq := parse_paf_line_eq line mn n hlt hn hwf
  refine ⟨?_, ?_, fun h => read_paf_skip_middle line mn h pre post,
          fun h => read_paf_ok_middle line mn r h pre post⟩
  · rw [heq, hn]
    by_cases h1 : n < mn
    · simp [h1]
    · by_cases h2 : (lastTag (pySplitTab line) "tp" = some "P" ∨
          lastTag (pySplitTab line) "tp" = some "I") ∧
          lastTag (pySplitTab line) "de" ≠ none
      · simp [h1, h2]
      · have h3 : n < mn ∨
            ¬ (lastTag (pySplitTab line) "tp" = some "P" ∨
               lastTag (pySplitTab line) "tp" = some "I") ∨
            lastTag (pySplitTab line) "de" = none := by tauto
        simp only [if_neg h1, if_neg h2, Option.getD_some]
        constructor
        · intro _; tauto
        · intro _; trivial
  · rw [heq]
    split_ifs <;> simp

/-- Witness for C1 at a concrete PAF line whose block length 1000 is below
the 100000 threshold: the line is skipped and dropping it leaves the rest
of the file's records intact. -/
theorem paf_reject_iff_filters_and_per_line_witness :
    parse_paf_line "q1\t500\t10\t400\t+\tt1\t900\t100\t300\t1000\t200000\t60\ttp:A:P\tde:f:0.01" 100000 =
      PafResult.skip ∧
    read_paf ["q2\t500\t10\t400\t+\tt1\t900\t100\t300\t150000\t200000\t60\ttp:A:P\tde:f:0.01",
              "q1\t500\t10\t400\t+\tt1\t900\t100\t300\t1000\t200000\t60\ttp:A:P\tde:f:0.01"] 100000 =
    read_paf ["q2\t500\t10\t400\t+\tt1\t900\t100\t300\t150000\t200000\t60\ttp:A:P\tde:f:0.01"] 100000 := by
  refine ⟨by decide, ?_⟩
  exact (paf_reject_iff_filters_and_per_line
    "q1\t500\t10\t400\t+\tt1\t900\t100\t300\t1000\t200000\t60\ttp:A:P\tde:f:0.01" 100000
    ["q2\t500\t10\t400\t+\tt1\t900\t100\t300\t150000\t200000\t60\ttp:A:P\tde:f:0.01"] []
    ⟨"", "", "", "", "", "", "", none, none⟩
    (by decide) (by decide) (by decide)).2.2.1 (by decide)

/-- C2: a PAF line passing all three filters yields a record whose
positional fields are fields 0, 2, 3, 5, 6, 7, 8 of the line and whose
`tp`/`de` are the last such tags among fields 12 and onward. -/
theorem paf_retained_record_fields (line : String) (mn n : Int) (tpv dev : String)
    (h12 : 12 ≤ (pySplitTab line).length)
    (hn : pyInt ((pySplitTab line).getD 9 "") = some n)
    (hmin : mn ≤ n)
    (hwf : ∀ f ∈ (pySplitTab line).drop 12, (pySplitOn ':' f).length = 3)
    (htp : lastTag (pySplitTab line) "tp" = some tpv)
    (htpv : tpv = "P" ∨ tpv = "I")
    (hde : lastTag (pySplitTab line) "de" = some dev) :
    parse_paf_line line mn = .ok
      { query_name := (pySplitTab line).getD 0 "", query_start := (pySplitTab line).getD 2 "",
        query_end := (pySplitTab line).getD 3 "", target_name := (pySplitTab line).getD 5 "",
        ref_pos_start := (pySplitTab line).getD 7 "", ref_pos_end := (pySplitTab line).getD 8 "",
        ref_seq_len := (pySplitTab line).getD 6 "", tp := some tpv, de := some dev } := by
  have hlt : ¬ (pySplitTab line).length < 12 := by omega
  have hcond : (lastTag (pySplitTab line) "tp" = some "P" ∨
      lastTag (pySplitTab line) "tp" = some "I") ∧
      lastTag (pySplitTab line) "de" ≠ none := by
    refine ⟨?_, by rw [hde]; simp⟩
    rcases htpv with h | h
    · left; rw [htp, h]
    · right; rw [htp, h]
  rw [parse_paf_line_eq line mn n hlt hn hwf, if_neg (by omega), if_pos hcond, htp, hde]

/-- Witness for C2 at a concrete retained PAF line. -/
theorem paf_retained_record_fields_witness :
    parse_paf_line "q2\t500\t10\t400\t+\tt1\t900\t100\t300\t150000\t200000\t60\ttp:A:P\tde:f:0.01" 100000 =
      PafResult.ok
        { query_name := "q2", query_start := "10", query_end := "400", target_name := "t1",
          ref_pos_start := "100", ref_pos_end := "300", ref_seq_len := "900",
          tp := some "P", de := some "0.01" } := by
  have h := paf_retained_record_fields
    "q2\t500\t10\t400\t+\tt1\t900\t100\t300\t150000\t200000\t60\ttp:A:P\tde:f:0.01"
    100000 150000 "P" "0.01" (by decide) (by decide) (by decide) (by decide)
    (by decide) (Or.inl rfl) (by decide)
  exact h

/-! ### Claims C4 and C10: the BED parser -/

/-- The color/record tail never yields `skip`: once past the size filter a
line is either materialized or a fatal error. -/
theorem bedOkOrErr_ne_skip (fields : List String) (start stop : Int) :
    bedOkOrErr fields start stop ≠ .skip := by
  simp only [bedOkOrErr]
  split
  · split <;> simp
  · simp

/-- A non-numeric component makes the component conversion fatal. -/
theorem pyIntList_eq_none {l : List String} {c : String}
    (hc : c ∈ l) (hbad : pyInt c = none) : pyIntList l = none := by
  induction l with
  | nil => cases hc
  | cons a l ih =>
    rcases List.mem_cons.mp hc with rfl | h
    · simp [pyIntList, hbad]
    · unfold pyIntList
      cases ha : pyInt a
      · rfl
      · rw [ih h]; rfl

/-- C4: for a BED line with at least 9 fields and integer fields 1 and 2,
the parser returns absent exactly when `end - start < 100000`; a retained
line with color field `255,0,0` gets the RGB triple `(1, 0, 0)`; a
retained line whose color field does not have exactly three
comma-separated components gets the default color `grey` instead of
failing. -/
theorem bed_filter_and_color (line : String) (s e : Int)
    (h9 : 9 ≤ (pySplitTab line).length)
    (hs : pyInt ((pySplitTab line).getD 1 "") = some s)
    (he : pyInt ((pySplitTab line).getD 2 "") = some e) :
    (parse_bed_line line = .skip ↔ e - s < 100000) ∧
    (100000 ≤ e - s → (pySplitTab line).getD 8 "" = "255,0,0" →
      parse_bed_line line = .ok
        { chrom := (pySplitTab line).getD 0 "", start := s, «end» := e,
          type := bed_type ((pySplitTab line).getD 3 ""), color := .rgb 1 0 0 }) ∧
    (100000 ≤ e - s → (pySplitOn ',' ((pySplitTab line).getD 8 "")).length ≠ 3 →
      parse_bed_line line = .ok
        { chrom := (pySplitTab line).getD 0 "", start := s, «end» := e,
          type := bed_type ((pySplitTab line).getD 3 ""), color := .named "grey" }) := by
  have h4 : ¬ (pySplitTab line).length < 4 := by omega
  have h9' : ¬ (pySplitTab line).length < 9 := by omega
  simp only [parse_bed_line, if_neg h4, hs, he]
  refine ⟨?_, ?_, ?_⟩
  · by_cases hsz : e - s < 100000
    · simp [hsz]
    · simp [if_neg hsz, if_neg h9', hsz, bedOkOrErr_ne_skip]
  · intro hsz hcol
    rw [if_neg (by omega), if_neg h9']
    simp only [bedOkOrErr]
    rw [hcol]
    rw [show pySplitOn ',' "255,0,0" = ["255", "0", "0"] from by decide,
        show pyIntList ["255", "0", "0"] = some [255, 0, 0] from by decide]
    norm_num [List.getD_cons_zero, List.getD_cons_succ]
  · intro hsz hlen
    rw [if_neg (by omega), if_neg h9']
    simp only [bedOkOrErr]
    rw [if_neg hlen]

/-- Witness for C4 at three concrete BED lines: one below the size
threshold, one retained with color `255,0,0`, one retained with a
two-component color field. -/
theorem bed_filter_and_color_witness :
    parse_bed_line "chr1\t0\t99999\tDUP_x\t.\t.\t.\t.\t255,0,0" = BedResult.skip ∧
    parse_bed_line "chr1\t0\t200000\tDUP_x\t.\t.\t.\t.\t255,0,0" =
      BedResult.ok { chrom := "chr1", start := 0, «end» := 200000, type := "DUP",
                     color := .rgb 1 0 0 } ∧
    parse_bed_line "chr1\t0\t200000\tDUP_x\t.\t.\t.\t.\t255,0" =
      BedResult.ok { chrom := "chr1", start := 0, «end» := 200000, type := "DUP",
                     color := .named "grey" } := by
  refine ⟨?_, ?_, ?_⟩
  · exact (bed_filter_and_color "chr1\t0\t99999\tDUP_x\t.\t.\t.\t.\t255,0,0" 0 99999
      (by decide) (by decide) (by decide)).1.mpr (by decide)
  · exact (bed_filter_and_color "chr1\t0\t200000\tDUP_x\t.\t.\t.\t.\t255,0,0" 0 200000
      (by decide) (by decide) (by decide)).2.1 (by decide) (by decide)
  · exact (bed_filter_and_color "chr1\t0\t200000\tDUP_x\t.\t.\t.\t.\t255,0" 0 200000
      (by decide) (by decide) (by decide)).2.2 (by decide) (by decide)

/-- C10: the default-color fallback covers only a wrong component count —
with exactly three comma-separated components one of which is not a
decimal integer numeral, `parse_bed_line` is a fatal error, not a default
color and not a record. -/
theorem bed_bad_component_fatal (line : String) (s e : Int) (c : String)
    (h9 : 9 ≤ (pySplitTab line).length)
    (hs : pyInt ((pySplitTab line).getD 1 "") = some s)
    (he : pyInt ((pySplitTab line).getD 2 "") = some e)
    (hsz : 100000 ≤ e - s)
    (hlen : (pySplitOn ',' ((pySplitTab line).getD 8 "")).length = 3)
    (hc : c ∈ pySplitOn ',' ((pySplitTab line).getD 8 ""))
    (hbad : pyInt c = none) :
    parse_bed_line line = .err := by
  have h4 : ¬ (pySplitTab line).length < 4 := by omega
  have h9' : ¬ (pySplitTab line).length < 9 := by omega
  simp only [parse_bed_line, if_neg h4, hs, he, if_neg (show ¬ e - s < 100000 by omega),
             if_neg h9']
  simp only [bedOkOrErr]
  rw [if_pos hlen, pyIntList_eq_none hc hbad]

/-- Witness for C10 at a concrete line whose third color component is
`zz`. -/
theorem bed_bad_component_fatal_witness :
    parse_bed_line "chr1\t0\t200000\tDUP_x\t.\t.\t.\t.\t255,0,zz" = BedResult.err := by
  exact bed_bad_component_fatal "chr1\t0\t200000\tDUP_x\t.\t.\t.\t.\t255,0,zz" 0 200000 "zz"
    (by decide) (by decide) (by decide) (by decide) (by decide) (by decide) (by decide)

/-! ### Claim C7: the color-lookup loader -/

/-- C7 (code bug): zero-column rows are skipped and a duplicated key keeps
the value of its last row, but a row with exactly one column is NOT
skipped: the guard `len(rows) >= value_column` (with `value_column = 1`)
admits it and `rows[1]` raises a fatal `IndexError`. -/
theorem tsv_single_column_row_is_fatal :
    read_tsv_to_dict [[], ["a", "1"], ["a", "2"]] = some [("a", "2")] ∧
    read_tsv_to_dict [["q1"], ["a", "1"]] = none := by
  decide

/-! ### Claim C5: natural sort and slot assignment -/

/-- C5: the natural order puts `chr1 < chr2 < chr10 < chrX`; over the
25-entry catalog every comparison is defined (no `int`/`str` `TypeError`)
and distinct names compare strictly, so the order is total; the sorted
(descending) catalog is the fixed expected list; the layout gives `chr1`
slot 25 and the natural-sort-greatest name `chrY` slot 1. -/
theorem natural_sort_order_and_slots :
    natLt "chr1" "chr2" = true ∧ natLt "chr2" "chr10" = true ∧
    natLt "chr10" "chrX" = true ∧
    (refNames.all fun a => refNames.all fun b =>
      (natCmp a b).isSome && (a == b || !(natCmp a b == some .eq))) = true ∧
    chroms = ["chrY", "chrX", "chrM", "chr22", "chr21", "chr20", "chr19", "chr18",
              "chr17", "chr16", "chr15", "chr14", "chr13", "chr12", "chr11", "chr10",
              "chr9", "chr8", "chr7", "chr6", "chr5", "chr4", "chr3", "chr2", "chr1"] ∧
    slotOf "chr1" = some 25 ∧ slotOf "chrY" = some 1 ∧
    (refNames.all fun a => a == "chrY" || natLt a "chrY") = true := by
  decide

/-! ### Claim C3: end-to-end single-alignment scenario -/

/-- C3: a tab-alignment input of a header plus one line with query `q1`,
chromosome `chr1` and coordinates 1000..2000, with a color file mapping
`q1` to `red`, yields exactly the reference track plus one alignment
rectangle at `x = 1000`, width 1000, color `red`, on `chr1`'s slot (25)
raised by the first-source spacing. -/
theorem end_to_end_single_alignment_rect :
    plot_data [["query\tqs\tqe\ttarget\tstart\tend", "q1\tA\tB\tchr1\t1000\t2000"]]
      [[["q1", "red"]]] [] =
      some (refRects ++
        [{ x := 1000, width := 1000, y := (25 : ℚ) + asm_spacing, height := asm_height,
           color := PyColor.named "red" }]) := by
  have htab : read_tab_file ["query\tqs\tqe\ttarget\tstart\tend", "q1\tA\tB\tchr1\t1000\t2000"] =
      some [{ chrom := "chr1", start := 1000, «end» := 2000, query := "q1" }] := by decide
  have htsv : read_tsv_to_dict [["q1", "red"]] = some [("q1", "red")] := by decide
  have hcontains : refContains "chr1" = true := by decide
  have hget : pyDictGet [("q1", "red")] "q1" = some "red" := by decide
  have hslot : slotOf "chr1" = some 25 := by decide
  simp [plot_data, loadSources, htab, htsv, plot_core, alignRectsFrom, sourceRects,
        hcontains, hget, hslot, regionRects]

/-! ### Claims C6 and C8: the layout engine -/

/-- Sequencing of per-source rectangle lists: any fatal source aborts,
otherwise the lists are concatenated in source order. -/
def seqRects : List (Option (List PlacedRectangle)) → Option (List PlacedRectangle)
  | [] => some []
  | o :: os =>
    match o with
    | none => none
    | some rs => (seqRects os).map (rs ++ ·)

/-- The claim's offset policy, stated directly: the source at (0-based)
index `i` is laid out at vertical offset `(i + 1) × asm_spacing`. -/
def offsetsSpec : ℕ → List (List TabRecord × List (String × String)) →
    List (Option (List PlacedRectangle))
  | _, [] => []
  | i, s :: rest =>
    sourceRects (((i : ℚ) + 1) * asm_spacing) s.2 s.1 :: offsetsSpec (i + 1) rest

/-- The incremental `vertical_offset += asm_spacing` loop realizes the
indexed offset policy `(i + 1) × asm_spacing`. -/
theorem alignRectsFrom_eq_offsetsSpec
    (srcs : List (List TabRecord × List (String × String))) :
    ∀ i : ℕ, alignRectsFrom (((i : ℚ) + 1) * asm_spacing) srcs =
      seqRects (offsetsSpec i srcs) := by
  induction srcs with
  | nil => intro i; rfl
  | cons s rest ih =>
    intro i
    simp only [alignRectsFrom, offsetsSpec, seqRects]
    rw [show ((i : ℚ) + 1) * asm_spacing + asm_spacing = (((i + 1 : ℕ) : ℚ) + 1) * asm_spacing by
      push_cast; ring]
    rw [ih (i + 1)]

/-- C6: two alignment sources, each with one record at the same catalog
chromosome and coordinates, produce two rectangles with the same x-range
at distinct heights — slot + spacing × 1 and slot + spacing × 2 — in
source order; and in general the source at index `i` is placed at offset
`(i + 1) × asm_spacing`. -/
theorem two_source_layout_offsets
    (c q₁ q₂ col₁ col₂ : String) (s e : Int) (y : ℕ)
    (lk₁ lk₂ : List (String × String))
    (srcs : List (List TabRecord × List (String × String)))
    (hc : refContains c = true) (hy : slotOf c = some y)
    (h₁ : pyDictGet lk₁ q₁ = some col₁) (h₂ : pyDictGet lk₂ q₂ = some col₂) :
    plot_core [([{ chrom := c, start := s, «end» := e, query := q₁ }], lk₁),
               ([{ chrom := c, start := s, «end» := e, query := q₂ }], lk₂)] [] =
      some (refRects ++
        [{ x := s, width := e - s, y := (y : ℚ) + asm_spacing * 1, height := asm_height,
           color := PyColor.named col₁ },
         { x := s, width := e - s, y := (y : ℚ) + asm_spacing * 2, height := asm_height,
           color := PyColor.named col₂ }]) ∧
    (y : ℚ) + asm_spacing * 1 ≠ (y : ℚ) + asm_spacing * 2 ∧
    alignRectsFrom asm_spacing srcs = seqRects (offsetsSpec 0 srcs) := by
  refine ⟨?_, ?_, ?_⟩
  · simp [plot_core, alignRectsFrom, sourceRects, hc, hy, h₁, h₂, regionRects]
    ring
  · norm_num [asm_spacing]
  · have h := alignRectsFrom_eq_offsetsSpec srcs 0
    rw [show (((0 : ℕ) : ℚ) + 1) * asm_spacing = asm_spacing by push_cast; ring] at h
    exact h

/-- A region on a chromosome outside the catalog yields no rectangle. -/
theorem regionRects_filter (regions : List RegionRecord) :
    regionRects (regions.filter fun r => refContains r.chrom) = regionRects regions := by
  unfold regionRects
  induction regions with
  | nil => rfl
  | cons r rs ih =>
    by_cases h : refContains r.chrom
    · simp [List.filter_cons, h, List.filterMap_cons, ih]
    · have hr : regionRect r = none := by simp [regionRect, h]
      simp [List.filter_cons, h, List.filterMap_cons, hr, ih]

/-- An alignment record on a chromosome outside the catalog yields no
rectangle (and its color is never looked up). -/
theorem sourceRects_filter (off : ℚ) (lk : List (String × String)) :
    ∀ ds : List TabRecord,
      sourceRects off lk (ds.filter fun d => refContains d.chrom) = sourceRects off lk ds := by
  intro ds
  induction ds with
  | nil => rfl
  | cons d l ih =>
    by_cases h : refContains d.chrom
    · simp [List.filter_cons, h, sourceRects, ih]
    · simp [List.filter_cons, h, sourceRects, ih]

/-- Filtering each source to catalog chromosomes changes nothing. -/
theorem alignRectsFrom_filter :
    ∀ (srcs : List (List TabRecord × List (String × String))) (off : ℚ),
      alignRectsFrom off (srcs.map fun s => (s.1.filter fun d => refContains d.chrom, s.2)) =
        alignRectsFrom off srcs := by
  intro srcs
  induction srcs with
  | nil => intro off; rfl
  | cons s rest ih =>
    intro off
    simp only [List.map_cons, alignRectsFrom, sourceRects_filter, ih]

/-- C8: every record or region whose chromosome is not a catalog key is
silently excluded: the layout is exactly the layout of the inputs with
those records removed (in particular no rectangle is emitted for them and
no error arises from them). -/
theorem unknown_chromosome_silently_excluded
    (sources : List (List TabRecord × List (String × String)))
    (regions : List RegionRecord) :
    plot_core sources regions =
      plot_core (sources.map fun s => (s.1.filter fun d => refContains d.chrom, s.2))
                (regions.filter fun r => refContains r.chrom) := by
  unfold plot_core
  rw [alignRectsFrom_filter, regionRects_filter]

/-- Witness for C6: two concrete one-record sources on `chr1` (slot 25). -/
theorem two_source_layout_offsets_witness :
    plot_core [([{ chrom := "chr1", start := 100, «end» := 300, query := "a" }], [("a", "red")]),
               ([{ chrom := "chr1", start := 100, «end» := 300, query := "b" }], [("b", "blue")])]
        [] =
      some (refRects ++
        [{ x := 100, width := 300 - 100, y := ((25 : ℕ) : ℚ) + asm_spacing * 1,
           height := asm_height, color := PyColor.named "red" },
         { x := 100, width := 300 - 100, y := ((25 : ℕ) : ℚ) + asm_spacing * 2,
           height := asm_height, color := PyColor.named "blue" }]) ∧
    ((25 : ℕ) : ℚ) + asm_spacing * 1 ≠ ((25 : ℕ) : ℚ) + asm_spacing * 2 ∧
    alignRectsFrom asm_spacing [] = seqRects (offsetsSpec 0 []) := by
  exact two_source_layout_offsets "chr1" "a" "b" "red" "blue" 100 300 25
    [("a", "red")] [("b", "blue")] [] (by decide) (by decide) (by decide) (by decide)

/-! ### Claim C9: the tab-alignment parser performs no end > start check -/

/-- C9 counterexample: a well-formed line whose field 5 is smaller than
field 4 is accepted, and the resulting record violates `end > start`. -/
theorem tab_record_end_gt_start_ctex :
    parse_tab_line "q1\tA\tB\tchr1\t2000\t1000" =
      some { chrom := "chr1", start := 2000, «end» := 1000, query := "q1" } ∧
    (parse_tab_line "q1\tA\tB\tchr1\t2000\t1000").map
      (fun r => decide (r.start < r.«end»)) = some false := by
  decide

/-- C9 amended: for every line the tab parser accepts (at least 6 fields,
numeric fields 4 and 5) it returns the record positionally, with start and
end exactly the integer values of fields 4 and 5; no ordering between them
is enforced, so `end > start` holds only when field 5 exceeds field 4. -/
theorem tab_parse_positional_no_order_check (line : String) (s e : Int)
    (h6 : 6 ≤ (pySplitTab line).length)
    (hs : pyInt ((pySplitTab line).getD 4 "") = some s)
    (he : pyInt ((pySplitTab line).getD 5 "") = some e) :
    parse_tab_line line =
      some { chrom := (pySplitTab line).getD 3 "", start := s, «end» := e,
             query := (pySplitTab line).getD 0 "" } := by
  have hlt : ¬ (pySplitTab line).length < 6 := by omega
  simp only [parse_tab_line, if_neg hlt, hs, he]

/-- Witness for the amended C9 at the counterexample line itself. -/
theorem tab_parse_positional_no_order_check_witness :
    parse_tab_line "q1\tA\tB\tchr1\t2000\t1000" =
      some { chrom := "chr1", start := 2000, «end» := 1000, query := "q1" } := by
  have h := tab_parse_positional_no_order_check "q1\tA\tB\tchr1\t2000\t1000" 2000 1000
    (by decide) (by decide) (by decide)
  exact h
